import Mathlib

/-!
Verification of the survey-dashboard tabulation and report-assembly engine
(`src/app.py`) against its natural-language specification.

The engine reads, per request, exactly three columns of the loaded dataset:
the geography column `"AC Name"`, the selected survey-question column, and
one demographic column per table.  A dataset row is therefore embedded as a
record of those three cells; a missing cell (pandas `NaN`) is `none`.
All tabulation, grand-total, selection-collapsing, export-enumeration and
filename logic below is translated directly from `src/app.py`.
-/

namespace SurveyDashboard

/-- One respondent record, restricted to the three columns the engine reads:
the value of the `"AC Name"` column, the value of the selected question
column and the value of the demographic column of the table being built.
A `none` models a missing value (pandas `NaN`). -/
structure Row where
  ac : Option String
  resp : Option String
  demo : Option String
deriving DecidableEq

/-- `fillna("Not Answered")` on the question column (`src/app.py` lines 166,
180, 199, 351, 367, 435): a missing response becomes `"Not Answered"`. -/
def fillna_resp (r : Row) : String :=
  r.resp.getD "Not Answered"

/-- `fillna("Not Specified")` on the demographic column (`src/app.py`
lines 200, 436): a missing demographic value becomes `"Not Specified"`. -/
def fillna_demo (r : Row) : String :=
  r.demo.getD "Not Specified"

/-- Helper for `pd_unique`: keep the elements not seen yet, in order,
remembering the seen ones. -/
def pd_unique_aux (seen : List String) : List String → List String
  | [] => []
  | x :: xs => if x ∈ seen then pd_unique_aux seen xs else x :: pd_unique_aux (x :: seen) xs

/-- pandas `Series.unique()`: the distinct values of a list in order of first
occurrence. -/
def pd_unique (l : List String) : List String :=
  pd_unique_aux [] l

/-- Decidability of the lexicographic order on strings by direct comparison
of the underlying character lists (the core instance, which evaluates by
structural recursion). -/
def str_le_dec : DecidableRel (fun a b : String => a ≤ b) :=
  fun a b => decidable_of_iff (a.toList ≤ b.toList) String.le_iff_toList_le.symm

/-- Python `sorted` on a list of strings: lexicographic (codepoint) order. -/
def py_sorted (l : List String) : List String :=
  @List.insertionSort String (· ≤ ·) str_le_dec l

/-- The distinguished question with a fixed response prefix ordering
(`src/app.py` lines 164, 348). -/
def kpcc_question : String := "Do you know who the KPCC President is?"

/-- The Response Vocabulary Resolver, `src/app.py` lines 348-357 (interactive
path) and, with identical logic, lines 164-170 (per-AC export path): for the
distinguished question start from `["No", "Yes"]` and append `"Not Answered"`
when it occurs among the (fillna-substituted) responses of the scope;
otherwise the lexicographically sorted distinct responses of the scope. -/
def response_columns_ordered (selected_question : String) (current_df : List Row) : List String :=
  if selected_question = kpcc_question then
    let base := ["No", "Yes"]
    let unique_responses_in_data := pd_unique (current_df.map fillna_resp)
    if "Not Answered" ∈ unique_responses_in_data ∧ "Not Answered" ∉ base then
      base ++ ["Not Answered"]
    else
      base
  else
    py_sorted (pd_unique (current_df.map fillna_resp))

/-- `value_counts().get(resp, 0)` over the question column of a scope
(`src/app.py` lines 181-184, 368-371): how many rows answer `resp` after the
`fillna` substitution. -/
def count_resp (scope : List Row) (resp : String) : Nat :=
  (scope.filter (fun r => fillna_resp r == resp)).length

/-- The floor of a rational, computed on its reduced fraction. -/
def rat_floor (q : ℚ) : ℤ :=
  Int.fdiv q.num q.den

/-- Round a rational to the nearest integer, ties to the even integer (the
rounding used when formatting the carried numeric percentage with `"%.2f"`). -/
def round_half_even (q : ℚ) : ℤ :=
  let f : ℤ := rat_floor q
  if q - f < 1/2 then f
  else if 1/2 < q - f then f + 1
  else if f % 2 = 0 then f else f + 1

/-- Left-pad a two-digit fractional part with `0`. -/
def pad2 (n : Nat) : String :=
  if n < 10 then "0" ++ toString n else toString n

/-- `f"{x:.2f}%"` on a nonnegative percentage value: two decimal places and
a trailing percent sign (`src/app.py` lines 186, 241, 373, 488). -/
def format_pct (q : ℚ) : String :=
  let n : Nat := (round_half_even (q * 100)).toNat
  toString (n / 100) ++ "." ++ pad2 (n % 100) ++ "%"

/-- The percentage computed for one vocabulary entry of the Grand Total row
(`src/app.py` lines 185, 372): `count / len * 100`, or `0` when the scope is
empty. -/
def gt_percentage (scope : List Row) (resp : String) : ℚ :=
  if 0 < scope.length then (count_resp scope resp : ℚ) / (scope.length : ℚ) * 100 else 0

/-- The Grand-Total Row Synthesizer of the interactive path, `src/app.py`
lines 361-377: `Total Number` is the scope size and each vocabulary entry
gets a formatted percentage string; an empty scope yields `0` and `"0.00%"`
everywhere. -/
def grand_total_row_data (scope : List Row) (vocab : List String) : Nat × List String :=
  if scope.isEmpty then
    (0, vocab.map (fun _ => "0.00%"))
  else
    (scope.length, vocab.map (fun resp => format_pct (gt_percentage scope resp)))

/-- The Grand-Total Row Synthesizer of the per-AC export path, `src/app.py`
lines 176-186 (no separate empty-scope branch; the guard sits inside the
percentage computation). -/
def ac_grand_total_row_data (scope : List Row) (vocab : List String) : Nat × List String :=
  (scope.length, vocab.map (fun resp => format_pct (gt_percentage scope resp)))

/-- A cell of a final display table: a string (labels and formatted
percentages), a number (`Total Number`) or a missing value (pandas `NA`). -/
inductive Cell where
  | str : String → Cell
  | num : Nat → Cell
  | na : Cell
deriving DecidableEq

/-- A final display table: its column names in order and its rows, each row a
list of cells parallel to the columns. -/
structure FinalTable where
  cols : List String
  rows : List (List Cell)
deriving DecidableEq

/-- The row index of `pd.crosstab` (`src/app.py` lines 208, 444): the distinct
(fillna-substituted) demographic values of the scope, in sorted order. -/
def crosstab_groups (scope : List Row) : List String :=
  py_sorted (pd_unique (scope.map fillna_demo))

/-- One crosstab count (`src/app.py` lines 208-211, 444-449): the number of
scope rows in demographic group `g` answering `resp`; `0` when the response
never occurs in the group. -/
def count_group_resp (scope : List Row) (g resp : String) : Nat :=
  (scope.filter (fun r => fillna_demo r == g && fillna_resp r == resp)).length

/-- `crosstab_df["Total Number"]` (`src/app.py` lines 214, 455): the sum of the
group's counts over the vocabulary columns. -/
def total_number (scope : List Row) (vocab : List String) (g : String) : Nat :=
  (vocab.map (fun resp => count_group_resp scope g resp)).sum

/-- `count / Total Number.replace(0, NA) * 100` (`src/app.py` lines 220, 462):
the raw percentage value of one response in one group, `NA` (`none`) when the
group's `Total Number` is `0`. -/
def pct_value (count total : Nat) : Option ℚ :=
  if total = 0 then none else some ((count : ℚ) / (total : ℚ) * 100)

/-- The display formatting step (`src/app.py` lines 239-241, 486-488): a
numeric percentage is rendered as `f"{x:.2f}%"`; a missing value is kept. -/
def pct_cell : Option ℚ → Cell
  | none => Cell.na
  | some q => Cell.str (format_pct q)

/-- One formatted table row of the interactive path (`src/app.py` lines
444-470): the group label, its `Total Number`, then one percentage cell per
vocabulary entry. -/
def group_row (scope : List Row) (vocab : List String) (g : String) : List Cell :=
  Cell.str g :: Cell.num (total_number scope vocab g) ::
    vocab.map (fun resp =>
      pct_cell (pct_value (count_group_resp scope g resp) (total_number scope vocab g)))

/-- The appended Grand Total display row (`src/app.py` lines 229-237,
473-483): label `"Grand Total"`, the synthesized `Total Number`, then the
pre-formatted percentage strings. -/
def grand_total_table_row (gt : Nat × List String) : List Cell :=
  Cell.str "Grand Total" :: Cell.num gt.1 :: gt.2.map Cell.str

/-- `table_df_final` of the interactive path, `src/app.py` lines 442-488:
columns are the demographic label, `"Total Number"` and one `"<resp> %"`
column per vocabulary entry; rows are one formatted row per crosstab group
followed by the Grand Total row. -/
def table_df_final (scope : List Row) (vocab : List String) (demo_display_name : String)
    (gt : Nat × List String) : FinalTable :=
  { cols := demo_display_name :: "Total Number" :: vocab.map (fun resp => resp ++ " %"),
    rows := (crosstab_groups scope).map (group_row scope vocab) ++ [grand_total_table_row gt] }

/-- `table_df_final` of the export path, `src/app.py` lines 207-241: the
duplicated per-AC table-building block, translated independently of the
interactive block above. -/
def table_df_final_pdf (scope : List Row) (vocab : List String) (demo_display_name : String)
    (gt : Nat × List String) : FinalTable :=
  { cols := demo_display_name :: "Total Number" :: vocab.map (fun resp => resp ++ " %"),
    rows :=
      (crosstab_groups scope).map (fun g =>
        Cell.str g :: Cell.num (total_number scope vocab g) ::
          vocab.map (fun resp =>
            pct_cell (pct_value (count_group_resp scope g resp) (total_number scope vocab g))))
      ++ [Cell.str "Grand Total" :: Cell.num gt.1 :: gt.2.map Cell.str] }

/-- The kind of message the interactive geography filter surfaces
(`st.info` at `src/app.py` line 324, `st.warning` at line 333, or none). -/
inductive Notice where
  | noNotice : Notice
  | infoAllPrecedence : Notice
  | warnNoneSelected : Notice
deriving DecidableEq

/-- The outcome of the interactive geography filtering, `src/app.py` lines
317-334: the filtered rows (`current_df`), the display label
(`ac_header_display`), the surfaced notice, and the value the `selected_acs`
variable holds afterwards (line 323 reassigns it). -/
structure AcSelection where
  rows : List Row
  ac_header_display : String
  notice : Notice
  effective_selection : List String
deriving DecidableEq

/-- The interactive geography filter, `src/app.py` lines 317-334: `"All"`
together with other values collapses to `"All"` with an info notice and no
filtering; `"All"` alone means no filtering; specific values restrict to the
rows whose `"AC Name"` is among them, labelled by the comma-joined selection;
an empty selection means no filtering with a warning. -/
def apply_ac_selection (data : List Row) (selected_acs : List String) : AcSelection :=
  if selected_acs ≠ [] then
    if "All" ∈ selected_acs ∧ 1 < selected_acs.length then
      ⟨data, "All Constituencies", Notice.infoAllPrecedence, ["All"]⟩
    else if "All" ∈ selected_acs then
      ⟨data, "All Constituencies", Notice.noNotice, selected_acs⟩
    else
      ⟨data.filter (fun r => match r.ac with | some a => selected_acs.contains a | none => false),
        String.intercalate ", " selected_acs, Notice.noNotice, selected_acs⟩
  else
    ⟨data, "All Constituencies (Default - None Selected)", Notice.warnNoneSelected, selected_acs⟩

/-- `sorted(df_survey_original["AC Name"].unique().tolist())` (`src/app.py`
line 383): the lexicographically sorted distinct geography values of the full
dataset. -/
def all_unique_acs (data : List Row) : List String :=
  py_sorted (pd_unique (data.filterMap Row.ac))

/-- `acs_for_pdf_report`, `src/app.py` lines 381-389: the list of geography
values the export enumerates — every distinct value of the full dataset when
the selection is empty or contains `"All"`, otherwise the selected values
that occur in the dataset, in selection order. -/
def acs_for_pdf_report (data : List Row) (selected_acs : List String) : List String :=
  if selected_acs = [] ∨ "All" ∈ selected_acs then
    all_unique_acs data
  else
    selected_acs.filter (fun ac => (all_unique_acs data).contains ac && ac != "All")

/-- One sub-table entry of an export section: the real table, or one of the
placeholder frames the export emits in its place (`src/app.py` lines 194,
203, 245). -/
inductive TableResult where
  | missingCol : String → TableResult
  | emptyData : String → TableResult
  | ok : FinalTable → TableResult
  | err : String → TableResult
deriving DecidableEq

/-- The body of one iteration of the per-dimension loop of the export,
`src/app.py` lines 191-246: a missing demographic column yields a
`- Data Missing` placeholder; an empty scope yields a status placeholder; a
failing table computation (the `except` branch, modelled by an `Except`
valued builder) yields an `- Error` placeholder; otherwise the built table is
emitted.  Each dimension is a (display name, column present) pair.
`dim_entry_result` is the `try`/`except` outcome of the table computation
itself (`src/app.py` lines 207-246). -/
def dim_entry_result (dim_name : String) : Except String FinalTable → String × TableResult
  | Except.ok t => (dim_name, TableResult.ok t)
  | Except.error e =>
      (dim_name ++ " - Error",
        TableResult.err ("Could not generate table for " ++ dim_name ++ ": " ++ e))

/-- The selection among the placeholder frames and the built table for one
dimension (see the doc comment above `dim_entry_result`). -/
def dim_entry (ac_name : String) (scope_is_empty : Bool)
    (build : String → Except String FinalTable) (dim : String × Bool) :
    String × TableResult :=
  if dim.2 = false then
    (dim.1 ++ " - Data Missing",
      TableResult.missingCol
        ("Demographic column " ++ dim.1 ++ " not found for AC: " ++ ac_name ++ "."))
  else if scope_is_empty then
    (dim.1, TableResult.emptyData "No data for this demographic group.")
  else
    dim_entry_result dim.1 (build dim.1)

/-- `tables_for_this_ac_pdf`, `src/app.py` lines 190-246: one entry per
configured demographic dimension, in configuration order. -/
def tables_for_this_ac_pdf (ac_name : String) (scope_is_empty : Bool)
    (build : String → Except String FinalTable) (dims : List (String × Bool)) :
    List (String × TableResult) :=
  dims.map (dim_entry ac_name scope_is_empty build)

/-- The concrete per-dimension table builder of the export path (`src/app.py`
lines 207-243): it always succeeds and produces the per-AC final table. -/
def ac_table_builder (ac_df : List Row) (vocab : List String) (gt : Nat × List String) :
    String → Except String FinalTable :=
  fun demo_display_name => Except.ok (table_df_final_pdf ac_df vocab demo_display_name gt)

/-- One section of the exported document: the geography value, whether it is
the no-data placeholder page (`src/app.py` lines 150-160), and its
sub-tables. -/
structure PdfSection where
  ac_name : String
  no_data : Bool
  tables : List (String × TableResult)
deriving DecidableEq

/-- The per-AC body of `generate_combined_ac_pdf`, `src/app.py` lines
146-250: filter the full dataset to the AC; an empty subset yields the
placeholder section; otherwise recompute the vocabulary for this AC (falling
back to the interactive vocabulary when empty, line 172-173), recompute the
Grand Total row for this AC, and build one table entry per dimension. -/
def pdf_section_for_ac (data : List Row) (selected_question : String)
    (ui_response_columns_ordered : List String) (dims : List (String × Bool))
    (ac_name : String) : PdfSection :=
  let ac_specific_df := data.filter (fun r => r.ac == some ac_name)
  if ac_specific_df.isEmpty then
    ⟨ac_name, true, []⟩
  else
    let current_ac_response_columns_ordered := response_columns_ordered selected_question ac_specific_df
    let vocab :=
      if current_ac_response_columns_ordered.isEmpty then ui_response_columns_ordered
      else current_ac_response_columns_ordered
    let gt := ac_grand_total_row_data ac_specific_df vocab
    ⟨ac_name, false,
      tables_for_this_ac_pdf ac_name ac_specific_df.isEmpty (ac_table_builder ac_specific_df vocab gt) dims⟩

/-- `generate_combined_ac_pdf`, `src/app.py` lines 115-261, abstracted to the
section structure of the produced document: one section per geography value
of `list_of_acs_to_process`, in list order. -/
def generate_combined_ac_pdf (data : List Row) (list_of_acs_to_process : List String)
    (selected_question : String) (dims : List (String × Bool))
    (ui_response_columns_ordered : List String) : List PdfSection :=
  list_of_acs_to_process.map (pdf_section_for_ac data selected_question ui_response_columns_ordered dims)

/-- The character substitution of `src/app.py` line 412: alphanumeric
characters and spaces are kept, every other character becomes `_`. -/
def sanitize_char (c : Char) : Char :=
  if c.isAlphanum || c = ' ' then c else '_'

/-- The `.replace(' ', '_')` step of `src/app.py` line 412. -/
def space_to_underscore (c : Char) : Char :=
  if c = ' ' then '_' else c

/-- `safe_question_part`, `src/app.py` line 412: substitute every
non-alphanumeric, non-space character with `_`, then replace spaces with
`_`. -/
def safe_question_part (selected_question : String) : String :=
  String.mk ((selected_question.data.map sanitize_char).map space_to_underscore)

/-- `pdf_file_name`, `src/app.py` line 413: the fixed prefix, the sanitized
question part truncated to 30 characters, and the `.pdf` extension. -/
def pdf_file_name (selected_question : String) : String :=
  "combined_ac_report_" ++ (safe_question_part selected_question).take 30 ++ ".pdf"

/-- The number of rows of a scope falling in demographic group `g` (the size
of one `pd.crosstab` group). -/
def group_size (scope : List Row) (g : String) : Nat :=
  (scope.filter (fun r => fillna_demo r == g)).length

section Lemmas

theorem mem_pd_unique_aux (x : String) :
    ∀ (l seen : List String), x ∈ pd_unique_aux seen l ↔ x ∈ l ∧ x ∉ seen := by
  intro l
  induction l with
  | nil => intro seen; simp [pd_unique_aux]
  | cons y ys ih =>
    intro seen
    rw [pd_unique_aux]
    by_cases hy : y ∈ seen
    · rw [if_pos hy, ih seen, List.mem_cons]
      constructor
      · rintro ⟨h1, h2⟩
        exact ⟨Or.inr h1, h2⟩
      · rintro ⟨rfl | h1, h2⟩
        · exact absurd hy h2
        · exact ⟨h1, h2⟩
    · rw [if_neg hy, List.mem_cons, ih (y :: seen), List.mem_cons, List.mem_cons]
      by_cases hxy : x = y
      · subst hxy
        simp [hy]
      · simp [hxy]

theorem nodup_pd_unique_aux : ∀ (l seen : List String), (pd_unique_aux seen l).Nodup := by
  intro l
  induction l with
  | nil => intro seen; simp [pd_unique_aux]
  | cons y ys ih =>
    intro seen
    rw [pd_unique_aux]
    by_cases hy : y ∈ seen
    · rw [if_pos hy]; exact ih seen
    · rw [if_neg hy]
      refine List.nodup_cons.mpr ⟨fun hmem => ?_, ih (y :: seen)⟩
      exact ((mem_pd_unique_aux y ys (y :: seen)).mp hmem).2 (List.mem_cons_self y seen)

theorem mem_pd_unique (x : String) (l : List String) : x ∈ pd_unique l ↔ x ∈ l := by
  rw [pd_unique, mem_pd_unique_aux]
  simp

theorem nodup_pd_unique (l : List String) : (pd_unique l).Nodup :=
  nodup_pd_unique_aux l []

theorem sorted_py_sorted (l : List String) : (py_sorted l).Sorted (· ≤ ·) :=
  @List.sorted_insertionSort String (fun a b => a ≤ b) str_le_dec
    inferInstance inferInstance l

theorem perm_py_sorted (l : List String) : (py_sorted l).Perm l :=
  @List.perm_insertionSort String (fun a b => a ≤ b) str_le_dec l

theorem mem_py_sorted (x : String) (l : List String) : x ∈ py_sorted l ↔ x ∈ l :=
  (perm_py_sorted l).mem_iff

theorem nodup_py_sorted (l : List String) (h : l.Nodup) : (py_sorted l).Nodup :=
  (perm_py_sorted l).nodup_iff.mpr h

/-- Two sorted deduplications agree whenever the underlying lists hold the
same values: the output depends only on the set of values, not on row
order. -/
theorem py_sorted_pd_unique_congr (l l' : List String) (h : ∀ x, x ∈ l ↔ x ∈ l') :
    py_sorted (pd_unique l) = py_sorted (pd_unique l') := by
  refine List.eq_of_perm_of_sorted ?_ (sorted_py_sorted _) (sorted_py_sorted _)
  refine (List.perm_ext_iff_of_nodup
    (nodup_py_sorted _ (nodup_pd_unique l)) (nodup_py_sorted _ (nodup_pd_unique l'))).mpr ?_
  intro a
  rw [mem_py_sorted, mem_py_sorted, mem_pd_unique, mem_pd_unique]
  exact h a

theorem rat_floor_zero : rat_floor 0 = 0 := by
  rw [rat_floor, Rat.num_zero, Rat.den_zero]
  decide

theorem round_half_even_zero : round_half_even 0 = 0 := by
  rw [round_half_even, rat_floor_zero]
  norm_num

theorem format_pct_zero : format_pct 0 = "0.00%" := by
  have h : round_half_even ((0 : ℚ) * 100) = 0 := by
    rw [zero_mul]; exact round_half_even_zero
  rw [format_pct, h]
  rfl

theorem pad2_length : ∀ n < 100, (pad2 n).length = 2 := by decide

/-- Every formatted percentage has exactly two decimal places and a trailing
percent sign. -/
theorem format_pct_shape (q : ℚ) :
    ∃ a b : String, format_pct q = a ++ "." ++ b ++ "%" ∧ b.length = 2 := by
  refine ⟨toString ((round_half_even (q * 100)).toNat / 100),
    pad2 ((round_half_even (q * 100)).toNat % 100), rfl, ?_⟩
  exact pad2_length _ (Nat.mod_lt _ (by norm_num))

theorem append_pct_injective (a b : String) (h : a ++ " %" = b ++ " %") : a = b := by
  have hd : a.data ++ (" %").data = b.data ++ (" %").data := by
    rw [← String.data_append, ← String.data_append, h]
  have := List.append_left_injective ((" %").data) hd
  exact String.ext this

theorem append_pct_ne_total_number (resp : String) : resp ++ " %" ≠ "Total Number" := by
  intro h
  have hd : resp.data ++ [' ', '%'] = ("Total Number").data := by
    rw [← String.data_append] at *
    exact congrArg String.data h
  have hlast := congrArg List.getLast? hd
  rw [show resp.data ++ [' ', '%'] = (resp.data ++ [' ']) ++ ['%'] by simp,
    List.getLast?_concat] at hlast
  simp at hlast

theorem count_group_resp_nil (g resp : String) : count_group_resp [] g resp = 0 := rfl

theorem count_group_resp_cons (r : Row) (scope : List Row) (g resp : String) :
    count_group_resp (r :: scope) g resp =
      count_group_resp scope g resp +
        (if fillna_demo r = g ∧ fillna_resp r = resp then 1 else 0) := by
  rw [count_group_resp, count_group_resp, List.filter_cons]
  by_cases h : fillna_demo r = g ∧ fillna_resp r = resp
  · rw [if_pos h]
    simp [h.1, h.2]
  · rw [if_neg h]
    rcases not_and_or.mp h with h1 | h1 <;> simp [h1]

theorem total_number_nil (vocab : List String) (g : String) : total_number [] vocab g = 0 := by
  induction vocab with
  | nil => rfl
  | cons v vs ih =>
    rw [total_number, List.map_cons, List.sum_cons, count_group_resp_nil]
    rw [total_number] at ih
    rw [ih]

theorem total_number_cons (r : Row) (scope : List Row) (vocab : List String) (g : String) :
    total_number (r :: scope) vocab g =
      total_number scope vocab g +
        (if fillna_demo r = g then vocab.count (fillna_resp r) else 0) := by
  induction vocab with
  | nil => simp [total_number]
  | cons v vs ih =>
    rw [total_number, List.map_cons, List.sum_cons, count_group_resp_cons]
    rw [total_number, List.map_cons, List.sum_cons]
    rw [total_number] at ih
    rw [show (List.map (fun resp => count_group_resp (r :: scope) g resp) vs).sum =
      (List.map (fun resp => count_group_resp scope g resp) vs).sum +
        (if fillna_demo r = g then vs.count (fillna_resp r) else 0) from ih]
    by_cases hd : fillna_demo r = g
    · by_cases hv : fillna_resp r = v
      · simp [hd, hv, List.count_cons]
        omega
      · have : ¬(fillna_demo r = g ∧ fillna_resp r = v) := fun hc => hv hc.2
        simp [hd, this, List.count_cons, hv]
        omega
    · have : ¬(fillna_demo r = g ∧ fillna_resp r = v) := fun hc => hd hc.1
      simp [hd, this]

theorem group_size_nil (g : String) : group_size [] g = 0 := rfl

theorem group_size_cons (r : Row) (scope : List Row) (g : String) :
    group_size (r :: scope) g =
      group_size scope g + (if fillna_demo r = g then 1 else 0) := by
  rw [group_size, group_size, List.filter_cons]
  by_cases h : fillna_demo r = g
  · simp [h]
  · simp [h]

/-- When the vocabulary has no duplicates and covers every response occurring
in group `g`, the group's `Total Number` is the group's size. -/
theorem total_number_eq_group_size (scope : List Row) (vocab : List String) (g : String)
    (hnd : vocab.Nodup) (hmem : ∀ r ∈ scope, fillna_demo r = g → fillna_resp r ∈ vocab) :
    total_number scope vocab g = group_size scope g := by
  induction scope with
  | nil => rw [total_number_nil, group_size_nil]
  | cons r rows ih =>
    rw [total_number_cons, group_size_cons,
      ih (fun r' hr' => hmem r' (List.mem_cons_of_mem _ hr'))]
    by_cases hd : fillna_demo r = g
    · rw [if_pos hd, if_pos hd,
        List.count_eq_one_of_mem hnd (hmem r (List.mem_cons_self _ _) hd)]
    · rw [if_neg hd, if_neg hd]

/-- The vocabulary produced by the resolver never contains duplicates. -/
theorem nodup_response_columns_ordered (q : String) (scope : List Row) :
    (response_columns_ordered q scope).Nodup := by
  rw [response_columns_ordered]
  by_cases hq : q = kpcc_question
  · rw [if_pos hq]
    by_cases hc : "Not Answered" ∈ pd_unique (scope.map fillna_resp) ∧
        "Not Answered" ∉ (["No", "Yes"] : List String)
    · rw [if_pos hc]; decide
    · rw [if_neg hc]; decide
  · rw [if_neg hq]
    exact nodup_py_sorted _ (nodup_pd_unique _)

theorem response_columns_ordered_other (q : String) (scope : List Row)
    (hq : q ≠ kpcc_question) :
    response_columns_ordered q scope = py_sorted (pd_unique (scope.map fillna_resp)) := by
  rw [response_columns_ordered, if_neg hq]

theorem response_columns_ordered_kpcc (scope : List Row) :
    response_columns_ordered kpcc_question scope =
      if "Not Answered" ∈ pd_unique (scope.map fillna_resp) then ["No", "Yes", "Not Answered"]
      else ["No", "Yes"] := by
  have hnb : "Not Answered" ∉ (["No", "Yes"] : List String) := by decide
  rw [response_columns_ordered, if_pos rfl]
  simp only [hnb, not_false_iff, and_true]
  by_cases hc : "Not Answered" ∈ pd_unique (scope.map fillna_resp)
  · rw [if_pos hc, if_pos hc]
    rfl
  · rw [if_neg hc, if_neg hc]

theorem na_mem_pd_unique_iff (scope : List Row) :
    "Not Answered" ∈ pd_unique (scope.map fillna_resp) ↔
      ∃ r ∈ scope, fillna_resp r = "Not Answered" := by
  rw [mem_pd_unique, List.mem_map]

theorem grand_total_row_data_fst (scope : List Row) (vocab : List String) :
    (grand_total_row_data scope vocab).1 = scope.length := by
  rw [grand_total_row_data]
  by_cases h : scope.isEmpty
  · rw [if_pos h, List.isEmpty_iff.mp h]
    rfl
  · rw [if_neg h]

end Lemmas

/-- C2: for every scope and vocabulary, the Grand Total row carries
`Total Number = |scope|` and, for each vocabulary entry `r`, the formatted
percentage `100 × count(r) / |scope|` (with `0` when the scope is empty),
computed directly from the scope's question-column distribution via
`count_resp`; and the identical row is appended as the last row of the final
table of every demographic dimension. -/
theorem claim_C2 (scope : List Row) (vocab : List String) (demo_display_name : String) :
    (grand_total_row_data scope vocab).1 = scope.length ∧
    (grand_total_row_data scope vocab).2 = vocab.map (fun resp =>
      format_pct (if scope.length = 0 then 0
        else 100 * (count_resp scope resp : ℚ) / (scope.length : ℚ))) ∧
    (table_df_final scope vocab demo_display_name (grand_total_row_data scope vocab)).rows.getLast?
      = some (Cell.str "Grand Total" :: Cell.num scope.length ::
          (grand_total_row_data scope vocab).2.map Cell.str) := by
  refine ⟨grand_total_row_data_fst scope vocab, ?_, ?_⟩
  · rw [grand_total_row_data]
    by_cases h : scope.isEmpty
    · rw [if_pos h]
      have hlen : scope.length = 0 := by rw [List.isEmpty_iff.mp h]; rfl
      refine List.map_congr_left fun resp _ => ?_
      rw [hlen, if_pos rfl, format_pct_zero]
    · rw [if_neg h]
      have hlen : scope.length ≠ 0 := by
        intro hc
        exact h (by rw [List.length_eq_zero.mp hc]; rfl)
      refine List.map_congr_left fun resp _ => ?_
      rw [gt_percentage, if_pos (Nat.pos_of_ne_zero hlen), if_neg hlen]
      congr 1
      ring
  · show ((crosstab_groups scope).map (group_row scope vocab) ++
        [grand_total_table_row (grand_total_row_data scope vocab)]).getLast? = _
    rw [List.getLast?_concat, grand_total_table_row, grand_total_row_data_fst]

/-- C5: for every non-empty scope, the distinguished question's vocabulary is
exactly `["No", "Yes"]` with `"Not Answered"` appended iff a (fillna-mapped)
`"Not Answered"` response is observed in the scope, and it is invariant under
reordering the scope's rows; for every other question the vocabulary is
sorted, duplicate-free, and holds exactly the observed responses. -/
theorem claim_C5 (scope : List Row) (q : String) (_hne : scope ≠ []) :
    (q = kpcc_question →
      ((∃ r ∈ scope, fillna_resp r = "Not Answered") →
          response_columns_ordered q scope = ["No", "Yes", "Not Answered"]) ∧
      ((¬ ∃ r ∈ scope, fillna_resp r = "Not Answered") →
          response_columns_ordered q scope = ["No", "Yes"]) ∧
      (∀ scope' : List Row, scope.Perm scope' →
          response_columns_ordered q scope = response_columns_ordered q scope')) ∧
    (q ≠ kpcc_question →
      (response_columns_ordered q scope).Sorted (· ≤ ·) ∧
      (response_columns_ordered q scope).Nodup ∧
      (∀ v, v ∈ response_columns_ordered q scope ↔ ∃ r ∈ scope, fillna_resp r = v)) := by
  constructor
  · rintro rfl
    refine ⟨?_, ?_, ?_⟩
    · intro hobs
      rw [response_columns_ordered_kpcc,
        if_pos ((na_mem_pd_unique_iff scope).mpr hobs)]
    · intro hobs
      rw [response_columns_ordered_kpcc,
        if_neg (fun hc => hobs ((na_mem_pd_unique_iff scope).mp hc))]
    · intro scope' hp
      rw [response_columns_ordered_kpcc, response_columns_ordered_kpcc]
      by_cases hm : "Not Answered" ∈ pd_unique (scope.map fillna_resp)
      · have hm' : "Not Answered" ∈ pd_unique (scope'.map fillna_resp) := by
          rw [mem_pd_unique] at hm ⊢
          exact (hp.map fillna_resp).mem_iff.mp hm
        rw [if_pos hm, if_pos hm']
      · have hm' : "Not Answered" ∉ pd_unique (scope'.map fillna_resp) := by
          rw [mem_pd_unique] at hm ⊢
          exact fun hc => hm ((hp.map fillna_resp).mem_iff.mpr hc)
        rw [if_neg hm, if_neg hm']
  · intro hq
    rw [response_columns_ordered_other q scope hq]
    refine ⟨sorted_py_sorted _, nodup_py_sorted _ (nodup_pd_unique _), fun v => ?_⟩
    rw [mem_py_sorted, mem_pd_unique, List.mem_map]

/-- A concrete two-row scope used to instantiate `claim_C5`. -/
def c5_scope : List Row :=
  [⟨some "A", some "Yes", some "M"⟩, ⟨some "A", none, some "F"⟩]

/-- Witness for C5 at a concrete scope: the distinguished question sees the
missing answer and appends `"Not Answered"`; another question's vocabulary is
sorted. -/
theorem claim_C5_witness :
    response_columns_ordered kpcc_question c5_scope = ["No", "Yes", "Not Answered"] ∧
    (response_columns_ordered "Whom will you vote for?" c5_scope).Sorted (· ≤ ·) := by
  constructor
  · exact ((claim_C5 c5_scope kpcc_question (by decide)).1 rfl).1
      ⟨⟨some "A", none, some "F"⟩, by decide, rfl⟩
  · exact ((claim_C5 c5_scope "Whom will you vote for?" (by decide)).2 (by decide)).1

/-- C10: the interactive table-building block and the per-AC export
table-building block are extensionally equal — on identical inputs (scope,
vocabulary, demographic label, grand-total row) they produce the same final
table — and the two Grand-Total synthesizers agree on every scope and
vocabulary. -/
theorem claim_C10 :
    (∀ (scope : List Row) (vocab : List String) (demo_display_name : String)
        (gt : Nat × List String),
      table_df_final scope vocab demo_display_name gt =
        table_df_final_pdf scope vocab demo_display_name gt) ∧
    (∀ (scope : List Row) (vocab : List String),
      grand_total_row_data scope vocab = ac_grand_total_row_data scope vocab) := by
  constructor
  · intro scope vocab demo_display_name gt
    rfl
  · intro scope vocab
    rw [grand_total_row_data, ac_grand_total_row_data]
    by_cases h : scope.isEmpty
    · rw [if_pos h, List.isEmpty_iff.mp h]
      refine Prod.ext rfl ?_
      refine (List.map_congr_left fun resp _ => ?_)
      rw [gt_percentage, if_neg (by norm_num), format_pct_zero]
    · rw [if_neg h]

/-- Unfolding of one formatted group row: the percentage cell is `NA` when
the group's `Total Number` is `0`, and the formatted ratio otherwise. -/
theorem group_row_eq (scope : List Row) (vocab : List String) (g : String) :
    group_row scope vocab g =
      Cell.str g :: Cell.num (total_number scope vocab g) ::
        vocab.map (fun resp =>
          if total_number scope vocab g = 0 then Cell.na
          else Cell.str (format_pct ((count_group_resp scope g resp : ℚ) /
            (total_number scope vocab g : ℚ) * 100))) := by
  rw [group_row]
  congr 1
  congr 1
  refine List.map_congr_left fun resp _ => ?_
  rw [pct_value]
  by_cases h : total_number scope vocab g = 0
  · rw [if_pos h, if_pos h]
    rfl
  · rw [if_neg h, if_neg h]
    rfl

/-- The `j`-th row of a final table is the formatted row of the `j`-th
crosstab group. -/
theorem table_df_final_rows_get (scope : List Row) (vocab : List String)
    (demo_display_name : String) (gt : Nat × List String) (j : Nat) (g : String)
    (hg : (crosstab_groups scope).get? j = some g) :
    (table_df_final scope vocab demo_display_name gt).rows.get? j =
      some (group_row scope vocab g) := by
  have hj : j < (crosstab_groups scope).length := by
    rcases List.get?_eq_some.mp hg with ⟨h, _⟩
    exact h
  show ((crosstab_groups scope).map (group_row scope vocab) ++
      [grand_total_table_row gt]).get? j = _
  rw [List.get?_append (by simpa using hj), List.get?_map, hg]
  rfl

/-- C3 (amended): in every final table, the `j`-th data row belongs to the
`j`-th crosstab group and carries, for each vocabulary entry, a percentage
cell that is the missing value `NA` when the group's `Total Number` is `0`
(the division is skipped, never raising an error) and otherwise the formatted
value `100 × count / Total Number`; every formatted percentage has exactly
two decimal places and a trailing percent sign.  The claim's assertion that a
`Total Number = 0` group renders `"0.00%"` is false: such a group renders
`NA` cells (see the counterexample). -/
theorem claim_C3 (scope : List Row) (vocab : List String) (demo_display_name : String)
    (gt : Nat × List String) :
    (∀ (j : Nat) (g : String), (crosstab_groups scope).get? j = some g →
      (table_df_final scope vocab demo_display_name gt).rows.get? j =
        some (Cell.str g :: Cell.num (total_number scope vocab g) ::
          vocab.map (fun resp =>
            if total_number scope vocab g = 0 then Cell.na
            else Cell.str (format_pct ((count_group_resp scope g resp : ℚ) /
              (total_number scope vocab g : ℚ) * 100))))) ∧
    (∀ p : ℚ, ∃ a b : String, format_pct p = a ++ "." ++ b ++ "%" ∧ b.length = 2) := by
  refine ⟨fun j g hg => ?_, fun p => format_pct_shape p⟩
  rw [table_df_final_rows_get scope vocab demo_display_name gt j g hg, group_row_eq]

/-- The one-row scope that exhibits a `Total Number = 0` group: its only row
answers the distinguished question with `"Maybe"`, a response outside the
fixed vocabulary `["No", "Yes"]`. -/
def c3_scope : List Row :=
  [⟨some "A", some "Maybe", some "M"⟩]

/-- Counterexample to C3 as stated: in the table for `c3_scope` under the
distinguished question's vocabulary, group `"M"` has `Total Number = 0` and
its percentage cells are the missing value `NA`, not the string `"0.00%"`. -/
theorem claim_C3_counterexample :
    total_number c3_scope (response_columns_ordered kpcc_question c3_scope) "M" = 0 ∧
    (table_df_final c3_scope (response_columns_ordered kpcc_question c3_scope)
        "What is your gender?"
        (grand_total_row_data c3_scope
          (response_columns_ordered kpcc_question c3_scope))).rows.get? 0 =
      some [Cell.str "M", Cell.num 0, Cell.na, Cell.na] ∧
    Cell.na ≠ Cell.str "0.00%" := by
  refine ⟨by decide, by decide, by decide⟩

/-- Witness for C3 (amended) at a concrete input: the first group row of the
table for `c3_scope` is exactly as `claim_C3` describes. -/
theorem claim_C3_witness :
    (table_df_final c3_scope (response_columns_ordered kpcc_question c3_scope)
        "What is your gender?" (0, [])).rows.get? 0 =
      some (Cell.str "M" ::
        Cell.num (total_number c3_scope
          (response_columns_ordered kpcc_question c3_scope) "M") ::
        (response_columns_ordered kpcc_question c3_scope).map (fun resp =>
          if total_number c3_scope
              (response_columns_ordered kpcc_question c3_scope) "M" = 0 then Cell.na
          else Cell.str (format_pct
            ((count_group_resp c3_scope "M" resp : ℚ) /
              (total_number c3_scope
                (response_columns_ordered kpcc_question c3_scope) "M" : ℚ) * 100)))) :=
  (claim_C3 c3_scope (response_columns_ordered kpcc_question c3_scope)
    "What is your gender?" (0, [])).1 0 "M" (by decide)

/-- C4 (amended): in every table, a group's `Total Number` is the sum of its
per-response counts over the vocabulary; that sum equals the group's size
whenever the vocabulary is duplicate-free and covers every response occurring
in the group — which always holds for non-distinguished questions, whose
vocabulary is the full set of observed responses.  For the distinguished
question the equality with the group size can fail (see the
counterexample). -/
theorem claim_C4 (scope : List Row) (vocab : List String) (g : String) :
    total_number scope vocab g =
      (vocab.map (fun resp => count_group_resp scope g resp)).sum ∧
    (vocab.Nodup → (∀ r ∈ scope, fillna_demo r = g → fillna_resp r ∈ vocab) →
      total_number scope vocab g = group_size scope g) ∧
    (∀ q, q ≠ kpcc_question →
      total_number scope (response_columns_ordered q scope) g = group_size scope g) := by
  refine ⟨rfl, fun hnd hmem => total_number_eq_group_size scope vocab g hnd hmem,
    fun q hq => ?_⟩
  refine total_number_eq_group_size _ _ _ (nodup_response_columns_ordered q scope) ?_
  intro r hr _
  rw [response_columns_ordered_other q scope hq, mem_py_sorted, mem_pd_unique]
  exact List.mem_map.mpr ⟨r, hr, rfl⟩

/-- Counterexample to C4 as stated: for the distinguished question over
`c3_scope`, group `"M"` has `Total Number = 0` (the `"Maybe"` response is
outside the fixed vocabulary) while the group's size is `1`. -/
theorem claim_C4_counterexample :
    total_number c3_scope (response_columns_ordered kpcc_question c3_scope) "M" ≠
      group_size c3_scope "M" := by
  decide

/-- Witness for C4 (amended) at a concrete input: under a duplicate-free
covering vocabulary the `Total Number` of group `"F"` equals its size. -/
theorem claim_C4_witness :
    total_number c5_scope ["No", "Yes", "Not Answered"] "F" = group_size c5_scope "F" :=
  (claim_C4 c5_scope ["No", "Yes", "Not Answered"] "F").2.1 (by decide) (by decide)

/-- C6 (amended): for every scope and question, the final table's columns are
exactly the demographic label, `"Total Number"`, then one `"<resp> %"` column
per vocabulary entry in vocabulary order; the percentage columns are
duplicate-free and (when the demographic label does not itself collide with
one of them) each vocabulary entry names exactly one column; every group row
has one cell per vocabulary entry, so an absent response still occupies its
column; that cell is `"0.00%"` whenever the group's `Total Number` is
nonzero, and the missing value `NA` when the `Total Number` is zero.  The
claim's assertion that an absent response always shows a zero-percent cell is
false at zero-total groups (see the counterexample). -/
theorem claim_C6 (q : String) (scope : List Row) (demo_display_name : String)
    (gt : Nat × List String) :
    (table_df_final scope (response_columns_ordered q scope) demo_display_name gt).cols =
      demo_display_name :: "Total Number" ::
        (response_columns_ordered q scope).map (fun resp => resp ++ " %") ∧
    ((response_columns_ordered q scope).map (fun resp => resp ++ " %")).Nodup ∧
    (demo_display_name ∉ (response_columns_ordered q scope).map (fun resp => resp ++ " %") →
      ∀ resp ∈ response_columns_ordered q scope,
        (table_df_final scope (response_columns_ordered q scope)
          demo_display_name gt).cols.count (resp ++ " %") = 1) ∧
    (∀ (j : Nat) (g : String), (crosstab_groups scope).get? j = some g →
      ∀ row : List Cell,
        (table_df_final scope (response_columns_ordered q scope)
          demo_display_name gt).rows.get? j = some row →
        row.length = (response_columns_ordered q scope).length + 2) ∧
    (∀ g resp, resp ∈ response_columns_ordered q scope →
      count_group_resp scope g resp = 0 →
      total_number scope (response_columns_ordered q scope) g ≠ 0 →
      pct_cell (pct_value (count_group_resp scope g resp)
        (total_number scope (response_columns_ordered q scope) g)) = Cell.str "0.00%") ∧
    (∀ g resp, resp ∈ response_columns_ordered q scope →
      total_number scope (response_columns_ordered q scope) g = 0 →
      pct_cell (pct_value (count_group_resp scope g resp)
        (total_number scope (response_columns_ordered q scope) g)) = Cell.na) := by
  have hnd : ((response_columns_ordered q scope).map (fun resp => resp ++ " %")).Nodup :=
    (nodup_response_columns_ordered q scope).map
      (fun a b h => append_pct_injective a b h)
  refine ⟨rfl, hnd, fun h resp hresp => ?_, fun j g hg row hrow => ?_,
    fun g resp _ hc hT => ?_, fun g resp _ hT => ?_⟩
  · have h1 : ¬((resp ++ " %") = demo_display_name) :=
      fun hc => h (hc ▸ List.mem_map.mpr ⟨resp, hresp, rfl⟩)
    have h2 : ¬((resp ++ " %") = "Total Number") := append_pct_ne_total_number resp
    show List.count (resp ++ " %") (demo_display_name :: "Total Number" ::
      (response_columns_ordered q scope).map (fun r => r ++ " %")) = 1
    have h1' : ¬((demo_display_name == resp ++ " %") = true) := by
      simp only [beq_iff_eq]
      exact fun hc => h1 hc.symm
    have h2' : ¬(("Total Number" == resp ++ " %") = true) := by
      simp only [beq_iff_eq]
      exact fun hc => h2 hc.symm
    rw [List.count_cons, List.count_cons, if_neg h2', if_neg h1',
      List.count_eq_one_of_mem hnd (List.mem_map.mpr ⟨resp, hresp, rfl⟩)]
  · rw [table_df_final_rows_get scope _ demo_display_name gt j g hg] at hrow
    cases hrow
    rw [group_row]
    simp
  · rw [pct_value, if_neg hT, hc]
    show Cell.str (format_pct (((0 : Nat) : ℚ) /
      (total_number scope (response_columns_ordered q scope) g : ℚ) * 100)) = _
    rw [show (((0 : Nat) : ℚ) /
      (total_number scope (response_columns_ordered q scope) g : ℚ) * 100) = 0 by simp,
      format_pct_zero]
  · rw [pct_value, if_pos hT]
    rfl

/-- Counterexample to C6 as stated: over `c3_scope` the distinguished
question's vocabulary contains `"No"`, the response is absent from group
`"M"` (count `0`), yet its cell in the final table is the missing value `NA`,
not a zero-percent cell — the group's `Total Number` is `0`, so the claimed
unconditional `"0.00%"` rendering fails. -/
theorem claim_C6_counterexample :
    "No" ∈ response_columns_ordered kpcc_question c3_scope ∧
    count_group_resp c3_scope "M" "No" = 0 ∧
    (table_df_final c3_scope (response_columns_ordered kpcc_question c3_scope)
        "What is your gender?" (1, ["0.00%", "0.00%"])).rows.get? 0 =
      some [Cell.str "M", Cell.num 0, Cell.na, Cell.na] ∧
    Cell.na ≠ Cell.str "0.00%" ∧ Cell.na ≠ Cell.str "0.00" ∧
    (∀ s : String, Cell.na ≠ Cell.str s) := by
  refine ⟨by decide, by decide, by decide, by decide, by decide, fun s => by simp⟩

/-- Witness for C6 (amended) at concrete inputs: the `"No %"` column occurs
exactly once in the table for `c3_scope`; a response with zero count in a
nonzero-total group of `c5_scope` renders `"0.00%"`; and in the zero-total
group of `c3_scope` the cell is `NA`. -/
theorem claim_C6_witness :
    (table_df_final c3_scope (response_columns_ordered kpcc_question c3_scope)
      "What is your gender?" (0, [])).cols.count ("No" ++ " %") = 1 ∧
    pct_cell (pct_value (count_group_resp c5_scope "M" "No")
      (total_number c5_scope (response_columns_ordered kpcc_question c5_scope) "M")) =
      Cell.str "0.00%" ∧
    pct_cell (pct_value (count_group_resp c3_scope "M" "No")
      (total_number c3_scope (response_columns_ordered kpcc_question c3_scope) "M")) =
      Cell.na := by
  refine ⟨?_, ?_, ?_⟩
  · exact (claim_C6 kpcc_question c3_scope "What is your gender?" (0, [])).2.2.1
      (by decide) "No" (by decide)
  · exact (claim_C6 kpcc_question c5_scope "G" (0, [])).2.2.2.2.1 "M" "No"
      (by decide) (by decide) (by decide)
  · exact (claim_C6 kpcc_question c3_scope "G" (0, [])).2.2.2.2.2 "M" "No"
      (by decide) (by decide)

/-- C7: in the interactive geography filter, `"All"` selected together with
other values collapses to `"All"` (no filtering, info notice); an empty
selection behaves like `["All"]` (no filtering) but surfaces a different
warning; a selection of specific values restricts the scope to exactly the
rows whose geography value is among them and labels it with the comma-joined
selection. -/
theorem claim_C7 (data : List Row) (sel : List String) :
    ("All" ∈ sel → 1 < sel.length →
      apply_ac_selection data sel =
        ⟨data, "All Constituencies", Notice.infoAllPrecedence, ["All"]⟩) ∧
    (sel = [] →
      (apply_ac_selection data sel).rows = data ∧
      (apply_ac_selection data sel).rows = (apply_ac_selection data ["All"]).rows ∧
      (apply_ac_selection data sel).notice = Notice.warnNoneSelected ∧
      (apply_ac_selection data ["All"]).notice = Notice.noNotice ∧
      Notice.warnNoneSelected ≠ Notice.noNotice) ∧
    ("All" ∉ sel → sel ≠ [] →
      (apply_ac_selection data sel).rows =
        data.filter (fun r => match r.ac with
          | some a => sel.contains a
          | none => false) ∧
      (∀ r, r ∈ (apply_ac_selection data sel).rows ↔
        r ∈ data ∧ ∃ a, r.ac = some a ∧ a ∈ sel) ∧
      (apply_ac_selection data sel).ac_header_display = String.intercalate ", " sel) := by
  have hAllOnly : apply_ac_selection data ["All"] =
      ⟨data, "All Constituencies", Notice.noNotice, ["All"]⟩ := by
    rw [apply_ac_selection, if_pos (by decide),
      if_neg (by decide), if_pos (by decide)]
  refine ⟨fun hAll hlen => ?_, fun hsel => ?_, fun hAll hsel => ?_⟩
  · rw [apply_ac_selection, if_pos (List.ne_nil_of_mem hAll), if_pos ⟨hAll, hlen⟩]
  · subst hsel
    rw [apply_ac_selection, if_neg (by decide), hAllOnly]
    exact ⟨rfl, rfl, rfl, rfl, by decide⟩
  · have hc2 : ¬("All" ∈ sel ∧ 1 < sel.length) := fun hc => hAll hc.1
    rw [apply_ac_selection, if_pos hsel, if_neg hc2, if_neg hAll]
    refine ⟨rfl, fun r => ?_, rfl⟩
    rw [List.mem_filter]
    cases hr : r.ac with
    | none => simp [hr]
    | some a =>
      simp only [hr, Option.some.injEq]
      constructor
      · rintro ⟨h1, h2⟩
        exact ⟨h1, a, rfl, List.elem_iff.mp h2⟩
      · rintro ⟨h1, b, hb, h2⟩
        cases hb
        exact ⟨h1, List.elem_iff.mpr h2⟩

/-- The two-constituency dataset used to instantiate the selection claims. -/
def c7_data : List Row :=
  [⟨some "X", none, none⟩, ⟨some "Y", none, none⟩]

/-- Witness for C7 at concrete selections: `["All", "X"]` collapses to
`["All"]` with the info notice, `[]` warns but filters nothing, and `["X"]`
restricts with label `"X"`. -/
theorem claim_C7_witness :
    apply_ac_selection c7_data ["All", "X"] =
      ⟨c7_data, "All Constituencies", Notice.infoAllPrecedence, ["All"]⟩ ∧
    (apply_ac_selection c7_data []).rows = c7_data ∧
    (apply_ac_selection c7_data []).notice = Notice.warnNoneSelected ∧
    (apply_ac_selection c7_data ["X"]).ac_header_display = String.intercalate ", " ["X"] := by
  refine ⟨(claim_C7 c7_data ["All", "X"]).1 (by decide) (by decide),
    ((claim_C7 c7_data []).2.1 rfl).1,
    ((claim_C7 c7_data []).2.1 rfl).2.2.1,
    ((claim_C7 c7_data ["X"]).2.2 (by decide) (by decide)).2.2⟩

/-- Each export section is titled by the geography value it was built for. -/
theorem pdf_section_for_ac_name (data : List Row) (q : String) (ui_vocab : List String)
    (dims : List (String × Bool)) (ac : String) :
    (pdf_section_for_ac data q ui_vocab dims ac).ac_name = ac := by
  rw [pdf_section_for_ac]
  by_cases h : (data.filter (fun r => r.ac == some ac)).isEmpty
  · rw [if_pos h]
  · rw [if_neg h]

/-- The export emits exactly one section per processed geography value, in
list order. -/
theorem generate_combined_ac_pdf_names (data : List Row) (acs : List String) (q : String)
    (dims : List (String × Bool)) (ui_vocab : List String) :
    (generate_combined_ac_pdf data acs q dims ui_vocab).map PdfSection.ac_name = acs := by
  rw [generate_combined_ac_pdf, List.map_map]
  exact (List.map_congr_left fun ac _ =>
    pdf_section_for_ac_name data q ui_vocab dims ac).trans (List.map_id acs)

/-- C1 (amended): `all_unique_acs` is the sorted duplicate-free list of the
geography values present in the full dataset, and the export's section
sequence equals it exactly when the interactive selection is empty or
contains `"All"`; when only specific values are selected the export covers
just those selected values (that occur in the dataset), in selection order —
not the full dataset, contrary to the claim as stated. -/
theorem claim_C1 (data : List Row) (sel : List String) (q : String)
    (dims : List (String × Bool)) (ui_vocab : List String) :
    (all_unique_acs data).Sorted (· ≤ ·) ∧
    (all_unique_acs data).Nodup ∧
    (∀ a, a ∈ all_unique_acs data ↔ ∃ r ∈ data, r.ac = some a) ∧
    ((sel = [] ∨ "All" ∈ sel) →
      (generate_combined_ac_pdf data (acs_for_pdf_report data sel) q dims ui_vocab).map
        PdfSection.ac_name = all_unique_acs data) ∧
    (¬(sel = [] ∨ "All" ∈ sel) →
      (generate_combined_ac_pdf data (acs_for_pdf_report data sel) q dims ui_vocab).map
        PdfSection.ac_name =
        sel.filter (fun ac => (all_unique_acs data).contains ac && ac != "All")) := by
  refine ⟨sorted_py_sorted _, nodup_py_sorted _ (nodup_pd_unique _), fun a => ?_,
    fun h => ?_, fun h => ?_⟩
  · rw [all_unique_acs, mem_py_sorted, mem_pd_unique, List.mem_filterMap]
  · rw [generate_combined_ac_pdf_names, acs_for_pdf_report, if_pos h]
  · rw [generate_combined_ac_pdf_names, acs_for_pdf_report, if_neg h]

/-- The two-constituency dataset on which the export drops a geography value
once a specific selection is active. -/
def c1_data : List Row :=
  [⟨some "B", none, none⟩, ⟨some "A", none, none⟩]

/-- Counterexample to C1 as stated: with constituencies `A` and `B` in the
full dataset and the interactive selection `["A"]`, the exported document has
a single section `A` instead of one section per geography value of the full
dataset. -/
theorem claim_C1_counterexample :
    (generate_combined_ac_pdf c1_data (acs_for_pdf_report c1_data ["A"]) kpcc_question
      [("What is your gender?", true)] ["No", "Yes"]).map PdfSection.ac_name = ["A"] ∧
    all_unique_acs c1_data = ["A", "B"] ∧
    (["A"] : List String) ≠ ["A", "B"] := by
  refine ⟨by decide, by decide, by decide⟩

/-- Witness for C1 (amended) at concrete selections: `["All"]` exports every
constituency of the dataset; `["A"]` exports exactly the selected one. -/
theorem claim_C1_witness :
    (generate_combined_ac_pdf c1_data (acs_for_pdf_report c1_data ["All"]) kpcc_question
      [("What is your gender?", true)] []).map PdfSection.ac_name = all_unique_acs c1_data ∧
    (generate_combined_ac_pdf c1_data (acs_for_pdf_report c1_data ["A"]) kpcc_question
      [("What is your gender?", true)] []).map PdfSection.ac_name =
      (["A"] : List String).filter
        (fun ac => (all_unique_acs c1_data).contains ac && ac != "All") :=
  ⟨(claim_C1 c1_data ["All"] kpcc_question [("What is your gender?", true)] []).2.2.2.1
      (by decide),
    (claim_C1 c1_data ["A"] kpcc_question [("What is your gender?", true)] []).2.2.2.2
      (by decide)⟩

/-- C8: the export never drops a section or a sub-table because of a local
failure — there is one section per processed geography value; an empty
geography subset yields the no-data placeholder section; a missing
demographic column yields the `- Data Missing` placeholder sub-table; every
dimension contributes exactly one entry; and changing the builder's outcome
on one dimension (e.g. an exception, modelled by the `Except` error branch
that the translated `except` arm catches into an `- Error` entry) leaves the
entries of all other dimensions unchanged. -/
theorem claim_C8 (data : List Row) (acs : List String) (q : String)
    (dims : List (String × Bool)) (ui_vocab : List String) (ac_name : String)
    (scope_is_empty : Bool) (build build' : String → Except String FinalTable) :
    ((generate_combined_ac_pdf data acs q dims ui_vocab).map PdfSection.ac_name = acs) ∧
    (∀ ac, (data.filter (fun r => r.ac == some ac)).isEmpty = true →
      pdf_section_for_ac data q ui_vocab dims ac = ⟨ac, true, []⟩) ∧
    ((tables_for_this_ac_pdf ac_name scope_is_empty build dims).length = dims.length) ∧
    (∀ dim ∈ dims, dim.2 = false →
      dim_entry ac_name scope_is_empty build dim =
        (dim.1 ++ " - Data Missing", TableResult.missingCol
          ("Demographic column " ++ dim.1 ++ " not found for AC: " ++ ac_name ++ "."))) ∧
    (∀ nm : String, (∀ d ∈ dims, d.1 ≠ nm → build d.1 = build' d.1) →
      ∀ (i : Nat) (d : String × Bool), dims.get? i = some d → d.1 ≠ nm →
        (tables_for_this_ac_pdf ac_name scope_is_empty build dims).get? i =
          (tables_for_this_ac_pdf ac_name scope_is_empty build' dims).get? i) := by
  refine ⟨generate_combined_ac_pdf_names data acs q dims ui_vocab,
    fun ac h => ?_, ?_, fun dim _ hdim => ?_, fun nm hbb i d hd hne => ?_⟩
  · rw [pdf_section_for_ac, if_pos h]
  · rw [tables_for_this_ac_pdf, List.length_map]
  · rw [dim_entry, if_pos hdim]
  · have hb : build d.1 = build' d.1 := hbb d (List.get?_mem hd) hne
    rw [tables_for_this_ac_pdf, tables_for_this_ac_pdf, List.get?_map, List.get?_map, hd]
    show some (dim_entry ac_name scope_is_empty build d) =
      some (dim_entry ac_name scope_is_empty build' d)
    rw [dim_entry, dim_entry, hb]

/-- The dimension configuration used to instantiate C8: one present column,
one absent column. -/
def c8_dims : List (String × Bool) :=
  [("What is your gender?", true), ("What is your age?", false)]

/-- A per-dimension builder that always succeeds. -/
def c8_build_ok : String → Except String FinalTable :=
  fun _ => Except.ok ⟨[], []⟩

/-- A per-dimension builder that fails on the first dimension only. -/
def c8_build_err : String → Except String FinalTable :=
  fun nm => if nm = "What is your gender?" then Except.error "boom" else Except.ok ⟨[], []⟩

/-- Witness for C8 at concrete inputs: an absent geography value still yields
its placeholder section, the table list has one entry per dimension, a
missing column yields its placeholder entry, and a failure on the first
dimension leaves the second dimension's entry unchanged. -/
theorem claim_C8_witness :
    pdf_section_for_ac c1_data kpcc_question [] c8_dims "C" = ⟨"C", true, []⟩ ∧
    (tables_for_this_ac_pdf "A" false c8_build_ok c8_dims).length = c8_dims.length ∧
    dim_entry "A" false c8_build_ok ("What is your age?", false) =
      ("What is your age?" ++ " - Data Missing", TableResult.missingCol
        ("Demographic column " ++ "What is your age?" ++ " not found for AC: " ++ "A" ++ ".")) ∧
    (tables_for_this_ac_pdf "A" false c8_build_err c8_dims).get? 1 =
      (tables_for_this_ac_pdf "A" false c8_build_ok c8_dims).get? 1 := by
  refine ⟨(claim_C8 c1_data [] kpcc_question c8_dims [] "A" false c8_build_ok
      c8_build_ok).2.1 "C" (by decide),
    (claim_C8 c1_data [] kpcc_question c8_dims [] "A" false c8_build_ok c8_build_ok).2.2.1,
    (claim_C8 c1_data [] kpcc_question c8_dims [] "A" false c8_build_ok
      c8_build_ok).2.2.2.1 ("What is your age?", false) (by decide) rfl,
    (claim_C8 c1_data [] kpcc_question c8_dims [] "A" false c8_build_err
      c8_build_ok).2.2.2.2 "What is your gender?" ?_ 1 ("What is your age?", false)
      (by decide) (by decide)⟩
  intro d hd hne
  rcases List.mem_cons.mp hd with rfl | hd2
  · exact absurd rfl hne
  · rcases List.mem_cons.mp hd2 with rfl | hd3
    · rfl
    · cases hd3

/-- C9 (amended): the export filename is the fixed prefix, the sanitized
question part truncated to 30 characters, and `.pdf`; sanitization replaces
(not removes) every non-alphanumeric, non-space character with `_` and then
replaces spaces with `_`, so every character of the question-derived part is
alphanumeric or `_`.  The claim's consequence that no non-alphanumeric,
non-space character of the question survives is false for `_` itself (see
the counterexample). -/
theorem claim_C9 (selected_question : String) :
    pdf_file_name selected_question =
      "combined_ac_report_" ++ (safe_question_part selected_question).take 30 ++ ".pdf" ∧
    (∀ c ∈ (safe_question_part selected_question).data, c.isAlphanum ∨ c = '_') := by
  refine ⟨rfl, fun c hc => ?_⟩
  rcases List.mem_map.mp hc with ⟨b, hb, rfl⟩
  rcases List.mem_map.mp hb with ⟨a, _, rfl⟩
  rw [sanitize_char, space_to_underscore]
  by_cases hb : a.isAlphanum
  · by_cases hs : a = ' '
    · simp [hb, hs]
    · simp [hb, hs]
  · by_cases hs : a = ' '
    · simp [hb, hs]
    · simp [hb, hs]

set_option maxRecDepth 4000 in
/-- Counterexample to C9 as stated: the question text `"a_b"` contains the
character `_`, which is neither alphanumeric nor a space, and the derived
filename still contains it — non-alphanumeric characters are replaced with
`_`, not stripped. -/
theorem claim_C9_counterexample :
    '_' ∈ ("a_b").data ∧ ¬('_'.isAlphanum ∨ '_' = ' ') ∧
    '_' ∈ (pdf_file_name "a_b").data ∧
    pdf_file_name "a_b" = "combined_ac_report_a_b.pdf" := by
  refine ⟨by decide, by decide, by decide, by decide⟩

/-- Witness for C9 (amended) at a concrete question text. -/
theorem claim_C9_witness :
    pdf_file_name "Do you know who the KPCC President is?" =
      "combined_ac_report_" ++
        (safe_question_part "Do you know who the KPCC President is?").take 30 ++ ".pdf" ∧
    ('D'.isAlphanum ∨ 'D' = '_') :=
  ⟨(claim_C9 "Do you know who the KPCC President is?").1,
    (claim_C9 "Do you know who the KPCC President is?").2 'D' (by decide)⟩

end SurveyDashboard
